import Mathlib

/-!
Verification development for the GeoPandas spatial-index accessor as
described in the repository documentation (the spatial indexing user
guide) and for the dependency manifest (environment-dev.yml).

The spatial index implementation itself is not part of the supplied
sources; following the documentation, the engine-level Sort-Tile-Recursive
R-tree operations are modelled here from the spec, and the accessor layer
(`SpatialIndex`, `GeoSeries.sindex`, `GeoDataFrame.sindex`) is a thin
dispatch over them.
-/

/-- Axis-aligned bounding box (envelope) with integer coordinates. -/
structure Box where
  xmin : Int
  ymin : Int
  xmax : Int
  ymax : Int
deriving DecidableEq, Repr

/-- A point in the plane with integer coordinates. -/
structure Pt where
  x : Int
  y : Int
deriving DecidableEq, Repr

/-- Whether two closed axis-aligned boxes intersect. -/
def boxIntersects (a b : Box) : Bool :=
  a.xmin ≤ b.xmax && b.xmin ≤ a.xmax && a.ymin ≤ b.ymax && b.ymin ≤ a.ymax

/-- Whether a closed box holds a point. -/
def Box.containsPt (b : Box) (p : Pt) : Bool :=
  b.xmin ≤ p.x && p.x ≤ b.xmax && b.ymin ≤ p.y && p.y ≤ b.ymax

/-- Whether box `a` holds box `b` entirely. -/
def Box.containsBox (a b : Box) : Bool :=
  a.xmin ≤ b.xmin && a.ymin ≤ b.ymin && b.xmax ≤ a.xmax && b.ymax ≤ a.ymax

/-- Smallest box holding both arguments. -/
def Box.join (a b : Box) : Box :=
  ⟨min a.xmin b.xmin, min a.ymin b.ymin, max a.xmax b.xmax, max a.ymax b.ymax⟩

/-- Modelled from the spec: a planar geometry, either a point or a region
given as a finite union of axis-aligned boxes.  Regions with several boxes
have envelopes strictly larger than the region itself, which is the
situation the spatial-indexing guide illustrates with the New York City
subboroughs. -/
inductive Geom where
  | point (p : Pt)
  | region (boxes : List Box)
deriving DecidableEq, Repr

/-- The bounding box (envelope) of a geometry.  An empty region gets an
inverted box that represents an empty envelope. -/
def envelope : Geom → Box
  | .point p => ⟨p.x, p.y, p.x, p.y⟩
  | .region [] => ⟨0, 0, -1, -1⟩
  | .region (b :: bs) => bs.foldl Box.join b

/-- Whether two geometries actually intersect (not merely their
envelopes). -/
def geomIntersects : Geom → Geom → Bool
  | .point p, .point q => p = q
  | .point p, .region bs => bs.any (fun b => b.containsPt p)
  | .region bs, .point p => bs.any (fun b => b.containsPt p)
  | .region as, .region bs => as.any (fun a => bs.any (fun b => boxIntersects a b))

/-- The boxes making up a geometry. -/
def geomBoxes : Geom → List Box
  | .point p => [⟨p.x, p.y, p.x, p.y⟩]
  | .region bs => bs

/-- Separation between the intervals `[amin, amax]` and `[bmin, bmax]`,
zero when they overlap. -/
def gapLen (amin amax bmin bmax : Int) : Int :=
  max 0 (max (bmin - amax) (amin - bmax))

/-- Squared distance between two closed boxes. -/
def boxDist2 (a b : Box) : Int :=
  gapLen a.xmin a.xmax b.xmin b.xmax ^ 2 + gapLen a.ymin a.ymax b.ymin b.ymax ^ 2

/-- Squared distance between two geometries: the least squared distance
over their constituent boxes. -/
def geomDist2 (a b : Geom) : Int :=
  (((geomBoxes a).flatMap (fun x => (geomBoxes b).map (fun y => boxDist2 x y))).min?).getD 0

/-- Modelled from the spec: the binary spatial predicates the engine can
evaluate during a query, keyed by name.  The guide fixes only the set of
valid names and the post-filtering scheme; each name is mapped here to a
definite Boolean relation on geometries of this model, with `intersects`
given its real meaning. -/
def predApply : String → Geom → Geom → Bool
  | "intersects", a, b => geomIntersects a b
  | "contains", a, b => Box.containsBox (envelope a) (envelope b)
  | "contains_properly", a, b => Box.containsBox (envelope a) (envelope b) && !(envelope a = envelope b)
  | "covers", a, b => Box.containsBox (envelope a) (envelope b)
  | "covered_by", a, b => Box.containsBox (envelope b) (envelope a)
  | "within", a, b => Box.containsBox (envelope b) (envelope a)
  | "crosses", a, b => geomIntersects a b && !Box.containsBox (envelope a) (envelope b) && !Box.containsBox (envelope b) (envelope a)
  | "overlaps", a, b => geomIntersects a b && !Box.containsBox (envelope a) (envelope b) && !Box.containsBox (envelope b) (envelope a)
  | "touches", a, b => geomIntersects a b && boxDist2 (envelope a) (envelope b) == 0
  | "dwithin", a, b => geomDist2 a b ≤ 1
  | _, _, _ => false

/-- Modelled from the spec: the Sort-Tile-Recursive R-tree of the geometry
engine (shapely), holding the tree geometries in positional order.  The
engine owns all index construction and query logic. -/
structure STRtree where
  geometries : List Geom
deriving DecidableEq, Repr

namespace STRtree

/-- The tree geometry at position `i` (an empty region out of range). -/
def geomAt (t : STRtree) (i : Nat) : Geom :=
  t.geometries.getD i (Geom.region [])

/-- Modelled from the spec: the default bounding-box query.  Returns the
positions of all tree geometries whose bounding box intersects the
bounding box of the input geometry. -/
def queryBBox (t : STRtree) (g : Geom) : List Nat :=
  (List.range t.geometries.length).filter
    (fun i => boxIntersects (envelope (t.geomAt i)) (envelope g))

/-- Modelled from the spec: the predicate-filtered query.  The tree is
queried by bounding box and each candidate hit is additionally checked
with the named spatial predicate, input geometry against tree
geometry, in one pass. -/
def queryPredicated (t : STRtree) (g : Geom) (p : String) : List Nat :=
  (List.range t.geometries.length).filter
    (fun i => boxIntersects (envelope (t.geomAt i)) (envelope g)
      && predApply p g (t.geomAt i))

/-- Modelled from the spec: the array query in the default indices output.
Returns two aligned subarrays, the first with positions of the input
geometries and the second with positions of the matching tree
geometries. -/
def queryArrayFmt (t : STRtree) (gs : List Geom) : List Nat × List Nat :=
  let pairs := (List.range gs.length).flatMap
    (fun j => (t.queryBBox (gs.getD j (Geom.region []))).map (fun i => (j, i)))
  (pairs.map Prod.fst, pairs.map Prod.snd)

/-- Modelled from the spec: the dense output format, a Boolean array of
shape (length of tree, number of inputs) whose rows align with tree
geometries and columns with input geometries. -/
def queryDenseFmt (t : STRtree) (gs : List Geom) : List (List Bool) :=
  t.geometries.map (fun tg => gs.map (fun g => boxIntersects (envelope tg) (envelope g)))

end STRtree

/-- A sparse array in coordinate (COO) format: a shape and the list of
stored entries, all of which hold the value True. -/
structure CooArray where
  shapeRows : Nat
  shapeCols : Nat
  entries : List (Nat × Nat)
deriving DecidableEq, Repr

namespace STRtree

/-- Modelled from the spec: the sparse output format, a COO array of
shape (length of tree, number of inputs) whose stored entries are the
(tree position, input position) pairs where a hit was found. -/
def querySparseFmt (t : STRtree) (gs : List Geom) : CooArray :=
  ⟨t.geometries.length, gs.length,
    (List.range t.geometries.length).flatMap (fun i =>
      ((List.range gs.length).filter
        (fun j => boxIntersects (envelope (t.geomAt i)) (envelope (gs.getD j (Geom.region []))))).map
        (fun j => (i, j)))⟩

/-- Modelled from the spec: position of the nearest tree geometry to the
input geometry (first position on ties, 0 on an empty tree). -/
def nearestOne (t : STRtree) (g : Geom) : Nat :=
  (List.range t.geometries.length).foldl
    (fun best i =>
      if geomDist2 g (t.geomAt i) < geomDist2 g (t.geomAt best) then i else best) 0

/-- Modelled from the spec: the nearest query in the indices
representation, pairing each input position with the tree position of its
nearest geometry. -/
def nearestArray (t : STRtree) (gs : List Geom) : List (Nat × Nat) :=
  (List.range gs.length).map (fun j => (j, t.nearestOne (gs.getD j (Geom.region []))))

/-- Modelled from the spec: the nearest query returning both the indices
representation and the array of corresponding distances. -/
def nearestArrayDistance (t : STRtree) (gs : List Geom) : List (Nat × Nat) × List Int :=
  (t.nearestArray gs,
   (List.range gs.length).map (fun j =>
     geomDist2 (gs.getD j (Geom.region []))
       (t.geomAt (t.nearestOne (gs.getD j (Geom.region []))))))

end STRtree

/-- Modelled from the spec: the set of values accepted by the `predicate`
keyword of `query`, as exposed by `valid_query_predicates`; the
no-predicate default (`none`) is among them. -/
def validQueryPredicates : List (Option String) :=
  [none, some "contains", some "contains_properly", some "covered_by",
   some "covers", some "crosses", some "dwithin", some "intersects",
   some "overlaps", some "touches", some "within"]

/-- Modelled from the spec: the `sindex` accessor object.  It only wraps
the engine tree; every operation is a thin dispatch into the engine. -/
structure SpatialIndex where
  tree : STRtree
deriving DecidableEq, Repr

namespace SpatialIndex

/-- Number of geometries in the index. -/
def size (idx : SpatialIndex) : Nat := idx.tree.geometries.length

/-- The tree geometry at position `i`. -/
def geomAt (idx : SpatialIndex) (i : Nat) : Geom := idx.tree.geomAt i

/-- Scalar query with the default (no) predicate: dispatches to the
engine bounding-box query. -/
def query (idx : SpatialIndex) (g : Geom) : List Nat :=
  idx.tree.queryBBox g

/-- Scalar query with an optional predicate: the predicate value is
validated against `validQueryPredicates` and the query dispatches to the
engine; an invalid predicate raises an error. -/
def queryChecked (idx : SpatialIndex) (g : Geom) (p : Option String) :
    Except String (List Nat) :=
  if p ∈ validQueryPredicates then
    match p with
    | none => .ok (idx.tree.queryBBox g)
    | some s => .ok (idx.tree.queryPredicated g s)
  else
    .error "Got predicate outside valid_query_predicates"

/-- Array query, indices output format: thin dispatch. -/
def queryArray (idx : SpatialIndex) (gs : List Geom) : List Nat × List Nat :=
  idx.tree.queryArrayFmt gs

/-- Array query, dense output format: thin dispatch. -/
def queryDense (idx : SpatialIndex) (gs : List Geom) : List (List Bool) :=
  idx.tree.queryDenseFmt gs

/-- Array query, sparse output format: thin dispatch. -/
def querySparse (idx : SpatialIndex) (gs : List Geom) : CooArray :=
  idx.tree.querySparseFmt gs

/-- Nearest query, indices representation: thin dispatch. -/
def nearest (idx : SpatialIndex) (gs : List Geom) : List (Nat × Nat) :=
  idx.tree.nearestArray gs

/-- Nearest query returning distances as well: thin dispatch. -/
def nearestDistance (idx : SpatialIndex) (gs : List Geom) :
    List (Nat × Nat) × List Int :=
  idx.tree.nearestArrayDistance gs

end SpatialIndex

/-- Modelled from the spec: a series of geometries, exposing the spatial
index through `sindex`. -/
structure GeoSeries where
  geometry : List Geom
deriving DecidableEq, Repr

/-- Modelled from the spec: a dataframe with a geometry column, exposing
the spatial index through `sindex`. -/
structure GeoDataFrame where
  geometry : GeoSeries
deriving DecidableEq, Repr

/-- Modelled from the spec: the `sindex` accessor of a GeoSeries builds
nothing itself, it exposes the engine tree over the series geometries. -/
def GeoSeries.sindex (s : GeoSeries) : SpatialIndex := ⟨⟨s.geometry⟩⟩

/-- Modelled from the spec: the `sindex` accessor of a GeoDataFrame is
that of its geometry column. -/
def GeoDataFrame.sindex (df : GeoDataFrame) : SpatialIndex :=
  df.geometry.sindex

/-- Demonstration tree geometry from the guide's illustration: an L-shaped
region of two boxes whose envelope covers points outside the region. -/
def lShape : Geom := .region [⟨0, 0, 1, 3⟩, ⟨0, 0, 3, 1⟩]

/-- A second, distant tree geometry. -/
def farBoxGeom : Geom := .region [⟨10, 10, 12, 12⟩]

/-- Demonstration spatial index over two geometries. -/
def demoIndex : SpatialIndex := ⟨⟨[lShape, farBoxGeom]⟩⟩

/-- The point from the guide that lies outside every geometry but inside
the envelope of the L-shaped region. -/
def pointOut : Geom := .point ⟨2, 2⟩

/-- One entry of the dependency manifest: a package name and the minimum
version it is pinned to, when any. -/
structure DepSpec where
  name : String
  minVersion : Option String
deriving DecidableEq, Repr

/-- The dependency manifest environment-dev.yml, by its comment
sections. -/
structure Manifest where
  manifestName : String
  channels : List String
  base : List DepSpec
  required : List DepSpec
  testing : List DepSpec
  styling : List DepSpec
  optional : List DepSpec
deriving DecidableEq, Repr

/-- The contents of environment-dev.yml. -/
def environmentDev : Manifest :=
  { manifestName := "geopandas-dev"
    channels := ["conda-forge"]
    base := [⟨"python", none⟩]
    required :=
      [⟨"pyogrio", some "0.7.2"⟩, ⟨"pandas", some "1.3.0"⟩,
       ⟨"pyproj", some "3.3.0"⟩, ⟨"shapely", some "2.0.0"⟩,
       ⟨"packaging", none⟩]
    testing :=
      [⟨"pytest", some "3.1.0"⟩, ⟨"pytest-cov", none⟩,
       ⟨"pytest-xdist", none⟩, ⟨"fsspec", none⟩, ⟨"codecov", none⟩]
    styling := [⟨"black", none⟩, ⟨"pre-commit", none⟩]
    optional :=
      [⟨"folium", none⟩, ⟨"xyzservices", none⟩, ⟨"scipy", none⟩,
       ⟨"libspatialite", none⟩, ⟨"geoalchemy2", none⟩, ⟨"pyarrow", none⟩,
       ⟨"pytest-doctestplus", none⟩, ⟨"geopy", none⟩,
       ⟨"psycopg2", some "2.8.0"⟩, ⟨"psycopg", some "3.1.0"⟩,
       ⟨"SQLAlchemy", some "1.3"⟩, ⟨"matplotlib", some "3.5"⟩,
       ⟨"mapclassify", none⟩, ⟨"pointpats", none⟩] }

/-! Helper lemmas shared by the claim theorems. -/

lemma mem_queryBBox {t : STRtree} {g : Geom} {i : Nat} :
    i ∈ t.queryBBox g ↔
      i < t.geometries.length
        ∧ boxIntersects (envelope (t.geomAt i)) (envelope g) = true := by
  simp [STRtree.queryBBox, List.mem_filter, List.mem_range]

lemma mem_queryPredicated {t : STRtree} {g : Geom} {p : String} {i : Nat} :
    i ∈ t.queryPredicated g p ↔
      i < t.geometries.length
        ∧ boxIntersects (envelope (t.geomAt i)) (envelope g) = true
        ∧ predApply p g (t.geomAt i) = true := by
  simp [STRtree.queryPredicated, List.mem_filter, List.mem_range, and_assoc]

lemma queryPredicated_eq_filter (t : STRtree) (g : Geom) (p : String) :
    t.queryPredicated g p
      = (t.queryBBox g).filter (fun i => predApply p g (t.geomAt i)) := by
  unfold STRtree.queryPredicated STRtree.queryBBox
  rw [List.filter_filter]
  exact List.filter_congr (fun i _ => by rw [Bool.and_comm])

lemma zip_fst_snd {α β : Type} (l : List (α × β)) :
    List.zip (l.map Prod.fst) (l.map Prod.snd) = l := by
  induction l with
  | nil => rfl
  | cons x xs ih => simp [ih]

lemma getD_map_range {β : Type} {n k : Nat} (f : Nat → β) (d : β) (hk : k < n) :
    ((List.range n).map f).getD k d = f k := by
  have hk2 : k < ((List.range n).map f).length := by
    rw [List.length_map, List.length_range]; exact hk
  rw [List.getD_eq_getElem _ _ hk2, List.getElem_map, List.getElem_range]

/-- C2: query with no predicate returns the positions of exactly those
tree geometries whose bounding box intersects the bounding box of the
input geometry; and for a concrete point lying outside every tree
geometry but whose bounding box intersects a tree bounding box, the
default query nevertheless returns a hit. -/
theorem default_query_is_bbox_query :
    (∀ (idx : SpatialIndex) (g : Geom) (i : Nat),
      i ∈ idx.query g ↔
        i < idx.size ∧ boxIntersects (envelope (idx.geomAt i)) (envelope g) = true)
    ∧ demoIndex.query pointOut ≠ []
    ∧ boxIntersects (envelope pointOut) (envelope lShape) = true
    ∧ ∀ tg ∈ demoIndex.tree.geometries, geomIntersects pointOut tg = false := by
  refine ⟨fun idx g i => mem_queryBBox, by decide, by decide, by decide⟩

/-- C1: a predicate query first queries the tree by bounding box and then
checks each candidate hit with the predicate: for every valid predicate
name, the result equals the default bounding-box result filtered by the
predicate, and in particular is a subset of it. -/
theorem query_predicate_post_filters (idx : SpatialIndex) (g : Geom) (p : String)
    (hp : some p ∈ validQueryPredicates) :
    idx.queryChecked g (some p)
      = Except.ok ((idx.query g).filter (fun i => predApply p g (idx.geomAt i)))
    ∧ ∀ i ∈ idx.tree.queryPredicated g p, i ∈ idx.query g := by
  constructor
  · simp only [SpatialIndex.queryChecked, if_pos hp]
    rw [queryPredicated_eq_filter]
    rfl
  · intro i hi
    rcases mem_queryPredicated.mp hi with ⟨h1, h2, _⟩
    exact mem_queryBBox.mpr ⟨h1, h2⟩

/-- Witness for C1 at the demonstration index, the guide's outside point
and the intersects predicate. -/
theorem query_predicate_post_filters_witness :
    some "intersects" ∈ validQueryPredicates
    ∧ (demoIndex.queryChecked pointOut (some "intersects")
        = Except.ok ((demoIndex.query pointOut).filter
            (fun i => predApply "intersects" pointOut (demoIndex.geomAt i)))
      ∧ ∀ i ∈ demoIndex.tree.queryPredicated pointOut "intersects",
          i ∈ demoIndex.query pointOut) :=
  ⟨by decide,
   query_predicate_post_filters demoIndex pointOut "intersects" (by decide)⟩

/-- C6: a query succeeds exactly when the predicate value is listed in
valid_query_predicates, which includes the no-predicate default and
intersects; any other predicate value produces an error and no result. -/
theorem query_predicate_validation (idx : SpatialIndex) (g : Geom) (p : Option String) :
    ((idx.queryChecked g p).isOk = true ↔ p ∈ validQueryPredicates)
    ∧ (p ∉ validQueryPredicates ↔
        idx.queryChecked g p
          = Except.error "Got predicate outside valid_query_predicates")
    ∧ none ∈ validQueryPredicates
    ∧ some "intersects" ∈ validQueryPredicates := by
  by_cases hp : p ∈ validQueryPredicates
  · refine ⟨?_, ?_, by decide, by decide⟩
    · simp only [SpatialIndex.queryChecked, if_pos hp]
      cases p <;> simp [Except.isOk, Except.toBool, hp]
    · simp only [SpatialIndex.queryChecked, if_pos hp]
      cases p <;> simp [hp]
  · refine ⟨?_, ?_, by decide, by decide⟩
    · simp [SpatialIndex.queryChecked, if_neg hp, Except.isOk, Except.toBool, hp]
    · simp [SpatialIndex.queryChecked, if_neg hp, hp]

/-- C5: the sindex accessor is available on GeoDataFrame and GeoSeries,
both expose the engine tree over the same geometries, and query and
nearest are thin dispatches whose results equal the corresponding engine
operations. -/
theorem sindex_thin_dispatch (df : GeoDataFrame) (s : GeoSeries) (g : Geom)
    (gs : List Geom) (p : String) :
    df.sindex = df.geometry.sindex
    ∧ (s.sindex).tree = STRtree.mk s.geometry
    ∧ s.sindex.query g = (STRtree.mk s.geometry).queryBBox g
    ∧ s.sindex.queryChecked g (some p)
        = (if some p ∈ validQueryPredicates
           then Except.ok ((STRtree.mk s.geometry).queryPredicated g p)
           else Except.error "Got predicate outside valid_query_predicates")
    ∧ s.sindex.nearest gs = (STRtree.mk s.geometry).nearestArray gs
    ∧ s.sindex.nearestDistance gs = (STRtree.mk s.geometry).nearestArrayDistance gs
    ∧ df.sindex.query g = df.geometry.sindex.query g
    ∧ df.sindex.nearest gs = df.geometry.sindex.nearest gs :=
  ⟨rfl, rfl, rfl, rfl, rfl, rfl, rfl, rfl⟩

/-- C7: the dependency manifest lists shapely, pyproj and pandas as
required dependencies with their minimum versions 2.0.0, 3.3.0 and
1.3.0. -/
theorem manifest_three_engines :
    (⟨"shapely", some "2.0.0"⟩ : DepSpec) ∈ environmentDev.required
    ∧ (⟨"pyproj", some "3.3.0"⟩ : DepSpec) ∈ environmentDev.required
    ∧ (⟨"pandas", some "1.3.0"⟩ : DepSpec) ∈ environmentDev.required := by
  refine ⟨?_, ?_, ?_⟩ <;> decide

lemma mem_queryArrayFmt {t : STRtree} {gs : List Geom} {i j : Nat} :
    (j, i) ∈ List.zip (t.queryArrayFmt gs).1 (t.queryArrayFmt gs).2 ↔
      j < gs.length ∧ i < t.geometries.length
        ∧ boxIntersects (envelope (t.geomAt i))
            (envelope (gs.getD j (Geom.region []))) = true := by
  simp only [STRtree.queryArrayFmt]
  rw [zip_fst_snd]
  simp only [List.mem_flatMap, List.mem_map, List.mem_range, Prod.mk.injEq]
  constructor
  · rintro ⟨a, ha, b, hb, rfl, rfl⟩
    rcases mem_queryBBox.mp hb with ⟨h1, h2⟩
    exact ⟨ha, h1, h2⟩
  · rintro ⟨hj, hi, hbb⟩
    exact ⟨j, hj, i, mem_queryBBox.mpr ⟨hi, hbb⟩, rfl, rfl⟩

lemma denseFmt_getD {t : STRtree} {gs : List Geom} {i j : Nat} :
    ((t.queryDenseFmt gs).getD i []).getD j false = true ↔
      i < t.geometries.length ∧ j < gs.length
        ∧ boxIntersects (envelope (t.geomAt i))
            (envelope (gs.getD j (Geom.region []))) = true := by
  unfold STRtree.queryDenseFmt
  by_cases hi : i < t.geometries.length
  · have hi2 : i < (t.geometries.map
        (fun tg => gs.map (fun g => boxIntersects (envelope tg) (envelope g)))).length := by
      rw [List.length_map]; exact hi
    rw [List.getD_eq_getElem _ _ hi2, List.getElem_map]
    by_cases hj : j < gs.length
    · have hj2 : j < (gs.map
          (fun g => boxIntersects (envelope t.geometries[i]) (envelope g))).length := by
        rw [List.length_map]; exact hj
      rw [List.getD_eq_getElem _ _ hj2, List.getElem_map]
      have e1 : t.geomAt i = t.geometries[i] := List.getD_eq_getElem _ _ hi
      have e2 : gs.getD j (Geom.region []) = gs[j] := List.getD_eq_getElem _ _ hj
      rw [e1, e2]
      simp [hi, hj]
    · have hj2 : (gs.map
          (fun g => boxIntersects (envelope t.geometries[i]) (envelope g))).length ≤ j := by
        rw [List.length_map]; omega
      rw [List.getD_eq_default _ _ hj2]
      simp [hj]
  · have hi2 : (t.geometries.map
        (fun tg => gs.map (fun g => boxIntersects (envelope tg) (envelope g)))).length ≤ i := by
      rw [List.length_map]; omega
    rw [List.getD_eq_default _ _ hi2]
    simp [hi]

lemma mem_querySparseFmt {t : STRtree} {gs : List Geom} {i j : Nat} :
    (i, j) ∈ (t.querySparseFmt gs).entries ↔
      i < t.geometries.length ∧ j < gs.length
        ∧ boxIntersects (envelope (t.geomAt i))
            (envelope (gs.getD j (Geom.region []))) = true := by
  simp only [STRtree.querySparseFmt]
  simp only [List.mem_flatMap, List.mem_map, List.mem_filter, List.mem_range, Prod.mk.injEq]
  constructor
  · rintro ⟨a, ha, b, ⟨hb, hbb⟩, rfl, rfl⟩
    exact ⟨ha, hb, hbb⟩
  · rintro ⟨hi, hj, hbb⟩
    exact ⟨i, hi, j, ⟨hj, hbb⟩, rfl, rfl⟩

/-- C3: the three output encodings of the array query present one hit
relation: the dense output has one row per tree geometry and one column
per input geometry, the sparse output has the same shape, and a pair
(input position, tree position) appears in the indices output exactly
when the corresponding dense entry is True, exactly when it is a stored
entry of the sparse output. -/
theorem query_output_formats_equivalent (idx : SpatialIndex) (gs : List Geom) (i j : Nat) :
    ((idx.queryDense gs).length = idx.size
      ∧ (∀ row ∈ idx.queryDense gs, row.length = gs.length))
    ∧ (idx.querySparse gs).shapeRows = idx.size
    ∧ (idx.querySparse gs).shapeCols = gs.length
    ∧ ((j, i) ∈ List.zip (idx.queryArray gs).1 (idx.queryArray gs).2 ↔
        ((idx.queryDense gs).getD i []).getD j false = true)
    ∧ (((idx.queryDense gs).getD i []).getD j false = true ↔
        (i, j) ∈ (idx.querySparse gs).entries) := by
  refine ⟨⟨?_, ?_⟩, rfl, rfl, ?_, ?_⟩
  · unfold SpatialIndex.queryDense STRtree.queryDenseFmt
    rw [List.length_map]; rfl
  · intro row hrow
    unfold SpatialIndex.queryDense STRtree.queryDenseFmt at hrow
    rcases List.mem_map.mp hrow with ⟨tg, _, rfl⟩
    rw [List.length_map]
  · unfold SpatialIndex.queryArray SpatialIndex.queryDense
    rw [mem_queryArrayFmt, denseFmt_getD]
    tauto
  · unfold SpatialIndex.queryDense SpatialIndex.querySparse
    rw [denseFmt_getD, mem_querySparseFmt]

lemma nearestOne_lt {t : STRtree} {g : Geom} (h : 0 < t.geometries.length) :
    t.nearestOne g < t.geometries.length := by
  have key : ∀ (l : List Nat) (b : Nat), b < t.geometries.length →
      (∀ i ∈ l, i < t.geometries.length) →
      l.foldl (fun best i =>
        if geomDist2 g (t.geomAt i) < geomDist2 g (t.geomAt best) then i else best) b
        < t.geometries.length := by
    intro l
    induction l with
    | nil => intro b hb _; simpa using hb
    | cons x xs ih =>
      intro b hb hl
      simp only [List.foldl_cons]
      by_cases hx : geomDist2 g (t.geomAt x) < geomDist2 g (t.geomAt b)
      · rw [if_pos hx]
        exact ih x (hl x (List.mem_cons_self x xs))
          (fun i hi => hl i (List.mem_cons_of_mem x hi))
      · rw [if_neg hx]
        exact ih b hb (fun i hi => hl i (List.mem_cons_of_mem x hi))
  exact key (List.range t.geometries.length) 0 h (fun i hi => List.mem_range.mp hi)

/-- C4: for a non-empty index, nearest returns the indices
representation pairing each input position with a valid tree position,
and with return_distance the result is a tuple of the same indices array
together with the distances between each input geometry and its matched
nearest tree geometry. -/
theorem nearest_formats (idx : SpatialIndex) (gs : List Geom) (h : 0 < idx.size) :
    (idx.nearestDistance gs).1 = idx.nearest gs
    ∧ (idx.nearest gs).length = gs.length
    ∧ (idx.nearestDistance gs).2.length = gs.length
    ∧ ∀ k, k < gs.length →
        ((idx.nearest gs).getD k (0, 0)).1 = k
        ∧ ((idx.nearest gs).getD k (0, 0)).2 < idx.size
        ∧ ((idx.nearestDistance gs).2).getD k 0
            = geomDist2 (gs.getD k (Geom.region []))
                (idx.geomAt ((idx.nearest gs).getD k (0, 0)).2) := by
  refine ⟨rfl, ?_, ?_, ?_⟩
  · unfold SpatialIndex.nearest STRtree.nearestArray
    rw [List.length_map, List.length_range]
  · unfold SpatialIndex.nearestDistance STRtree.nearestArrayDistance
    rw [List.length_map, List.length_range]
  · intro k hk
    have e1 : (idx.nearest gs).getD k (0, 0)
        = (k, idx.tree.nearestOne (gs.getD k (Geom.region []))) := by
      unfold SpatialIndex.nearest STRtree.nearestArray
      exact getD_map_range _ _ hk
    have e2 : ((idx.nearestDistance gs).2).getD k 0
        = geomDist2 (gs.getD k (Geom.region []))
            (idx.tree.geomAt (idx.tree.nearestOne (gs.getD k (Geom.region [])))) := by
      unfold SpatialIndex.nearestDistance STRtree.nearestArrayDistance
      exact getD_map_range _ _ hk
    refine ⟨by rw [e1], ?_, by rw [e1, e2]; rfl⟩
    rw [e1]
    exact nearestOne_lt h

/-- Witness for C4 at the demonstration index and the guide's outside
point. -/
theorem nearest_formats_witness :
    0 < demoIndex.size
    ∧ ((demoIndex.nearestDistance [pointOut]).1 = demoIndex.nearest [pointOut]
      ∧ (demoIndex.nearest [pointOut]).length = [pointOut].length
      ∧ (demoIndex.nearestDistance [pointOut]).2.length = [pointOut].length
      ∧ ∀ k, k < [pointOut].length →
          ((demoIndex.nearest [pointOut]).getD k (0, 0)).1 = k
          ∧ ((demoIndex.nearest [pointOut]).getD k (0, 0)).2 < demoIndex.size
          ∧ ((demoIndex.nearestDistance [pointOut]).2).getD k 0
              = geomDist2 ([pointOut].getD k (Geom.region []))
                  (demoIndex.geomAt ((demoIndex.nearest [pointOut]).getD k (0, 0)).2)) :=
  ⟨by decide, nearest_formats demoIndex [pointOut] (by decide)⟩
